import Mathlib

/-!
Verification of the proposal-lifecycle core of the eth-prague DAO governance
application: phase derivation, vote tallying, vote permission, the
auto-conclusion engine and orchestrator, proposal sorting, and the proposal
HTTP routes with the global error middleware.

The pure helpers (`getProposalPhase`, `getVoteCounts`, `canUserVote`) and the
service routine (`autoConcludeProposals`) live in the repository's
`utils/daoHelpers.ts` and `services/daoService.ts`, which are not part of the
provided sources; they are modelled from the specification (section 4), as
noted on each definition.  `sortProposals` and the route/middleware logic are
translated directly from `Container.tsx`, `proposal.routes.ts` and
`api/index.ts`.
-/

namespace EthPrague

/-- Lifecycle phase of a proposal, derived purely from timestamps. -/
inductive Phase where
  | upcoming
  | voting
  | feedback
  | ended
deriving DecidableEq, Repr

/-- Proposal record as used by the client code: timestamps are modelled as
integer epoch milliseconds (the JS code compares `new Date(x).getTime()`
values), and the two conclusion fields are nullable. -/
structure Proposal where
  proposal_id : String
  dao_id : String
  title : String
  description : String
  voting_start : Int
  voting_end : Int
  feedback_end : Int
  created_at : Int
  voting_house : String
  conclusion : Option String
  feedback_conclusion : Option String
deriving DecidableEq, Repr

/-- Modelled from the spec: `getProposalPhase` / `derivePhase` of
`utils/daoHelpers.ts` (not in the provided sources), per section 4.1 of the
specification: `now < voting_start` gives `upcoming`;
`voting_start <= now < voting_end` gives `voting`;
`voting_end <= now < feedback_end` gives `feedback`;
`now >= feedback_end` gives `ended`.  The current wall-clock time is passed
explicitly as `now`. -/
def getProposalPhase (p : Proposal) (now : Int) : Phase :=
  if now < p.voting_start then Phase.upcoming
  else if now < p.voting_end then Phase.voting
  else if now < p.feedback_end then Phase.feedback
  else Phase.ended

/-- Concrete degenerate proposal (all three timestamps equal) used to exhibit
the behaviour of `getProposalPhase` at the `voting_end` boundary. -/
def degenerateProposal : Proposal :=
  { proposal_id := "p0"
    dao_id := "d0"
    title := "t"
    description := "d"
    voting_start := 0
    voting_end := 0
    feedback_end := 0
    created_at := 0
    voting_house := "A"
    conclusion := none
    feedback_conclusion := none }

/-- Concrete well-separated proposal used as a witness input. -/
def sampleProposal : Proposal :=
  { proposal_id := "p1"
    dao_id := "d1"
    title := "t"
    description := "d"
    voting_start := 0
    voting_end := 10
    feedback_end := 20
    created_at := -5
    voting_house := "A"
    conclusion := none
    feedback_conclusion := none }

/-- Voting track: main voting or feedback voting. -/
inductive Track where
  | main
  | feedback
deriving DecidableEq, Repr

/-- Modelled from the spec: a conclusion request produced by the
auto-conclusion engine (section 4.4 of the specification), carrying the
proposal and the track whose phase is to be concluded. -/
structure ConclusionAction where
  proposalId : String
  track : Track
deriving DecidableEq, Repr

/-- Modelled from the spec: main-track conclusion eligibility (section 4.4):
the phase is at or past `feedback` (`now >= voting_end`) and `conclusion` is
still unset. -/
def mainEligible (p : Proposal) (now : Int) : Bool :=
  decide (p.voting_end ≤ now) && p.conclusion.isNone

/-- Modelled from the spec: feedback-track conclusion eligibility (section
4.4): the phase is `ended` (`now >= feedback_end`) and `feedback_conclusion`
is still unset. -/
def feedbackEligible (p : Proposal) (now : Int) : Bool :=
  decide (p.feedback_end ≤ now) && p.feedback_conclusion.isNone

/-- Modelled from the spec: the auto-conclusion engine (section 4.4), part of
`services/daoService.ts` which is absent from the provided sources: each
eligible track of the proposal yields one conclusion action, main track
first. -/
def autoConclude (p : Proposal) (now : Int) : List ConclusionAction :=
  (if mainEligible p now then
    [{ proposalId := p.proposal_id, track := Track.main }]
  else []) ++
  (if feedbackEligible p now then
    [{ proposalId := p.proposal_id, track := Track.feedback }]
  else [])

/-- Modelled from the spec: a per-track conclusion outcome recorded by the
orchestrator (sections 3 and 4.5, Conclusion Batch Result): the concluded
track's phase, a success flag, and an error message on failure. -/
structure ConcludeOutcome where
  proposalId : String
  phase : Track
  success : Bool
  error : Option String
deriving DecidableEq, Repr

/-- Modelled from the spec: the result shape of `autoConcludeProposals`
(section 4.5). -/
structure BatchResult where
  total : Nat
  concluded : List ConcludeOutcome
deriving DecidableEq, Repr

/-- Modelled from the spec: one conclusion request to the persistence
collaborator's `concludeProposal` operation (section 6); the collaborator is
abstracted as a success oracle `ok`, and a failure is converted into a
structured outcome carrying an error message instead of propagating an
exception (section 7). -/
def concludeCall (ok : String → Track → Bool) (a : ConclusionAction) :
    ConcludeOutcome :=
  if ok a.proposalId a.track then
    { proposalId := a.proposalId, phase := a.track, success := true,
      error := none }
  else
    { proposalId := a.proposalId, phase := a.track, success := false,
      error := some "conclusion call failed" }

/-- Modelled from the spec: the conclusion orchestrator
`autoConcludeProposals` (section 4.5), part of `services/daoService.ts`
which is absent from the provided sources: it scans the proposals in order,
issues one conclusion call per action produced by the engine, records every
outcome in input order, and reports the number of attempts as `total`. -/
def autoConcludeProposals (ps : List Proposal) (now : Int)
    (ok : String → Track → Bool) : BatchResult :=
  let concluded := ps.flatMap (fun p => (autoConclude p now).map (concludeCall ok))
  { total := concluded.length, concluded := concluded }

/-- Modelled from the spec: the effect on a proposal snapshot of persisting
the successful conclusion writes of one orchestrator pass (section 6,
`concludeProposal` write contract): each successfully concluded track's
field becomes set and is never un-set.  The written outcome value is
abstracted as `val`. -/
def persistProposal (val : Track → String) (ok : String → Track → Bool)
    (now : Int) (p : Proposal) : Proposal :=
  { p with
    conclusion :=
      if mainEligible p now && ok p.proposal_id Track.main then
        some (val Track.main)
      else p.conclusion
    feedback_conclusion :=
      if feedbackEligible p now && ok p.proposal_id Track.feedback then
        some (val Track.feedback)
      else p.feedback_conclusion }

/-- Concrete proposals and collaborator oracle for the three-proposal
partial-failure scenario: at `now = 30` each has exactly one eligible track
(main), and the collaborator fails exactly on the second proposal. -/
def proposalA : Proposal :=
  { sampleProposal with proposal_id := "pA", feedback_end := 100 }

/-- Second proposal of the partial-failure scenario. -/
def proposalB : Proposal :=
  { sampleProposal with proposal_id := "pB", feedback_end := 100 }

/-- Third proposal of the partial-failure scenario. -/
def proposalC : Proposal :=
  { sampleProposal with proposal_id := "pC", feedback_end := 100 }

/-- Collaborator oracle that fails exactly on proposal `pB`. -/
def failOnB : String → Track → Bool :=
  fun pid _ => !(pid == "pB")

/-- Vote record: references a proposal, a voting actor, a track flag, a
choice and a non-negative weight (section 3).  The choice is modelled as a
raw string so that unknown/malformed values are representable. -/
structure Vote where
  proposal_id : String
  wallet_address : String
  is_feedback : Bool
  vote : String
  weight : Nat
deriving DecidableEq, Repr

/-- Per-choice tally bucket: number of matching votes and summed weight. -/
structure Bucket where
  count : Nat
  weight : Nat
deriving DecidableEq, Repr

/-- Add one vote of weight `w` to a bucket. -/
def Bucket.add (b : Bucket) (w : Nat) : Bucket :=
  { count := b.count + 1, weight := b.weight + w }

/-- Empty bucket. -/
def Bucket.zero : Bucket :=
  { count := 0, weight := 0 }

/-- Componentwise sum of two buckets. -/
def Bucket.plus (a b : Bucket) : Bucket :=
  { count := a.count + b.count, weight := a.weight + b.weight }

/-- Result shape of the vote tally (section 4.2). -/
structure VoteCounts where
  yes : Bucket
  no : Bucket
  abstain : Bucket
  total : Bucket
deriving DecidableEq, Repr

/-- Relevance predicate of the tally: the vote belongs to this proposal and
to the requested track. -/
def voteMatches (p : Proposal) (isFeedback : Bool) (v : Vote) : Bool :=
  v.proposal_id == p.proposal_id && v.is_feedback == isFeedback

/-- Single step of the tally fold: a matching YES/NO/ABSTAIN vote is added
to its bucket and to `total`; any other vote is ignored. -/
def voteStep (p : Proposal) (isFeedback : Bool) (v : Vote) (acc : VoteCounts) :
    VoteCounts :=
  if voteMatches p isFeedback v then
    if v.vote == "YES" then
      { acc with yes := acc.yes.add v.weight, total := acc.total.add v.weight }
    else if v.vote == "NO" then
      { acc with no := acc.no.add v.weight, total := acc.total.add v.weight }
    else if v.vote == "ABSTAIN" then
      { acc with abstain := acc.abstain.add v.weight,
                 total := acc.total.add v.weight }
    else acc
  else acc

/-- Modelled from the spec: `getVoteCounts` / `tally` of
`utils/daoHelpers.ts` (section 4.2), absent from the provided sources:
filters the votes to the proposal and track, buckets them by choice,
sums occurrence counts and weights per choice, and keeps `total` as the sum
across the three known choices, ignoring unknown choice values. -/
def getVoteCounts (p : Proposal) (votes : List Vote) (isFeedback : Bool) :
    VoteCounts :=
  votes.foldr (voteStep p isFeedback)
    { yes := Bucket.zero, no := Bucket.zero, abstain := Bucket.zero,
      total := Bucket.zero }

/-- Reference bucket for one choice: length and summed weight of the votes
matching the proposal, the track, and that exact choice. -/
def tallyBucket (p : Proposal) (isFeedback : Bool) (choice : String)
    (votes : List Vote) : Bucket :=
  { count := (votes.filter (fun v => voteMatches p isFeedback v && v.vote == choice)).length
    weight := ((votes.filter (fun v => voteMatches p isFeedback v && v.vote == choice)).map Vote.weight).sum }

/-- First demonstration vote: YES with weight 3 on the sample proposal's
main track. -/
def voteYes3 : Vote :=
  { proposal_id := "p1", wallet_address := "0xa", is_feedback := false,
    vote := "YES", weight := 3 }

/-- Second demonstration vote: YES with weight 2. -/
def voteYes2 : Vote :=
  { proposal_id := "p1", wallet_address := "0xb", is_feedback := false,
    vote := "YES", weight := 2 }

/-- Third demonstration vote: NO with weight 1. -/
def voteNo1 : Vote :=
  { proposal_id := "p1", wallet_address := "0xc", is_feedback := false,
    vote := "NO", weight := 1 }

/-- Feedback-track vote that must not affect a main-track tally. -/
def voteOtherTrack : Vote :=
  { proposal_id := "p1", wallet_address := "0xd", is_feedback := true,
    vote := "YES", weight := 7 }

/-- Demonstration vote list of the specification's tally scenario. -/
def demoVotes : List Vote :=
  [voteYes3, voteYes2, voteNo1]

/-- Result of the vote-permission check: a flag plus a reason populated when
the flag is false (section 3, Vote Permission Result). -/
structure VotePermission where
  canVote : Bool
  reason : String
deriving DecidableEq, Repr

/-- Modelled from the spec: `canUserVote` of `utils/daoHelpers.ts` (section
4.3), absent from the provided sources.  The rules are evaluated in order
and the first failing rule fixes the reason: (1) the actor address must be
present; (2) the phase must be active for the requested track (main track
requires `voting`, feedback track requires `feedback`); (3) on the main
track the actor's house must equal `proposal.voting_house` unless `isOwner`
is true (the feedback track has no house restriction).  The exact reason
strings are representative; the spec fixes only that they are non-empty on
denial and empty on success. -/
def canUserVote (p : Proposal) (actorAddress : Option String)
    (actorHouse : Option String) (isOwner : Bool) (isFeedback : Bool)
    (now : Int) : VotePermission :=
  match actorAddress with
  | none => { canVote := false, reason := "Wallet not connected" }
  | some _ =>
    if isFeedback then
      if getProposalPhase p now ≠ Phase.feedback then
        { canVote := false, reason := "Feedback voting is not active" }
      else { canVote := true, reason := "" }
    else
      if getProposalPhase p now ≠ Phase.voting then
        { canVote := false, reason := "Voting is not active" }
      else if !isOwner && (actorHouse != some p.voting_house) then
        { canVote := false, reason := "You are not in the voting house" }
      else { canVote := true, reason := "" }

/-- Phase rank used by `sortProposals` in active mode (`Container.tsx`): the
source map gives voting 0, feedback 1, upcoming 2, and any phase outside the
map (only `ended`) falls back to 3 via the `?? 3` default. -/
def phaseOrder : Phase → Nat
  | Phase.voting => 0
  | Phase.feedback => 1
  | Phase.upcoming => 2
  | Phase.ended => 3

/-- Comparator of `sortProposals` (`Container.tsx`, lines 116 to 151),
translated clause by clause; `new Date(x).getTime()` differences become
integer subtraction.  In active mode proposals compare by phase rank, then
within a common phase by the phase's deadline (ascending `voting_start` for
upcoming, `voting_end` for voting, `feedback_end` for feedback), and for
phases outside the rank map by descending `created_at`; in inactive mode
they compare by descending `feedback_end`. -/
def proposalCompare (showOnlyActive : Bool) (now : Int) (a b : Proposal) :
    Int :=
  if showOnlyActive then
    if phaseOrder (getProposalPhase a now) ≠ phaseOrder (getProposalPhase b now) then
      (phaseOrder (getProposalPhase a now) : Int) -
        (phaseOrder (getProposalPhase b now) : Int)
    else if getProposalPhase a now = Phase.upcoming then
      a.voting_start - b.voting_start
    else if getProposalPhase a now = Phase.voting then
      a.voting_end - b.voting_end
    else if getProposalPhase a now = Phase.feedback then
      a.feedback_end - b.feedback_end
    else b.created_at - a.created_at
  else b.feedback_end - a.feedback_end

/-- Boolean "sorts no later than" relation induced by the comparator. -/
def proposalLE (showOnlyActive : Bool) (now : Int) (a b : Proposal) : Bool :=
  decide (proposalCompare showOnlyActive now a b ≤ 0)

/-- Translation of `sortProposals` (`Container.tsx`, lines 108 to 152): an
absent input yields the empty list, otherwise a sorted copy of the input is
returned; `Array.prototype.sort` (stable per the ECMAScript specification)
is modelled as a stable merge sort over the comparator. -/
def sortProposals (proposals : Option (List Proposal)) (showOnlyActive : Bool)
    (now : Int) : List Proposal :=
  match proposals with
  | none => []
  | some ps => ps.mergeSort (proposalLE showOnlyActive now)

/-- In-phase sort key of the active-mode comparator. -/
def sortKey (now : Int) (a : Proposal) : Int :=
  match getProposalPhase a now with
  | Phase.upcoming => a.voting_start
  | Phase.voting => a.voting_end
  | Phase.feedback => a.feedback_end
  | Phase.ended => -a.created_at

/-- Error value reaching the Express error middleware (`api/index.ts`): the
middleware reads only the thrown value's `name`, `message` and `errorCode`
fields; an absent field is `none`, and the zero case keeps JS falsiness
observable. -/
structure AppError where
  name : Option String
  message : String
  errorCode : Option Int
deriving DecidableEq, Repr

/-- HTTP response produced by a route handler or the error middleware:
`res.json({success: true, data})` carries the Express default status 200;
the middleware sets an explicit status and a `{success: false, message}`
body. -/
structure RouteResponse (δ : Type) where
  status : Int
  success : Bool
  data : Option δ
  message : Option String
deriving DecidableEq, Repr

/-- Translation of the middleware's `err.errorCode || 500` (`api/index.ts`,
line 61): JS `||` falls back on any falsy value, so both an absent and a
zero error code give 500. -/
def errorCodeOr500 : Option Int → Int
  | none => 500
  | some n => if n = 0 then 500 else n

/-- Translation of the middleware's `err.name || "Server Error"`. -/
def errorNameOrDefault : Option String → String
  | none => "Server Error"
  | some s => if s = "" then "Server Error" else s

/-- Global error middleware of `api/index.ts` (lines 56 to 66): responds
with status `err.errorCode || 500` and body
`{success: false, message: name + ": " + message}`. -/
def errorMiddleware (δ : Type) (e : AppError) : RouteResponse δ :=
  { status := errorCodeOr500 e.errorCode
    success := false
    data := none
    message := some (errorNameOrDefault e.name ++ ": " ++ e.message) }

/-- Common shape of the three proposal route handlers
(`proposal.routes.ts`): the service call's result is modelled as
`Except AppError`; on success the handler responds
`res.json({success: true, data})`, and a thrown error is passed to the
error middleware via `next(error)` instead of crashing. -/
def routeResponse (δ : Type) (service : Except AppError δ) :
    RouteResponse δ :=
  match service with
  | Except.ok data =>
      { status := 200, success := true, data := some data, message := none }
  | Except.error e => errorMiddleware δ e

/-- Handler of POST `/api/v1/proposal/create`
(`handleCreateProposal` in `proposal.routes.ts`). -/
def handleCreateProposal (δ : Type) (service : Except AppError δ) :
    RouteResponse δ :=
  routeResponse δ service

/-- Handler of POST `/api/v1/proposal/conclude`
(`handleConcludeProposal` in `proposal.routes.ts`). -/
def handleConcludeProposal (δ : Type) (service : Except AppError δ) :
    RouteResponse δ :=
  routeResponse δ service

/-- Handler of GET `/api/v1/proposal/:proposal_id`
(`handleGetProposalWithVotes` in `proposal.routes.ts`). -/
def handleGetProposalWithVotes (δ : Type) (service : Except AppError δ) :
    RouteResponse δ :=
  routeResponse δ service

/-- Error value whose `errorCode` is present but zero, a JS-falsy value. -/
def errZero : AppError :=
  { name := some "AppError", message := "boom", errorCode := some 0 }

/-- C1 (amended): under the temporal invariant the four phase predicates of
the specification characterise `getProposalPhase` exactly, hence the four
intervals partition the timeline with no gap or overlap; at the boundary
`now = voting_end` the result is never `voting`, and is `feedback` provided
`voting_end < feedback_end` (when `voting_end = feedback_end` that instant
already belongs to the `ended` interval). -/
theorem getProposalPhase_partition (p : Proposal) (now : Int)
    (h1 : p.voting_start ≤ p.voting_end) (h2 : p.voting_end ≤ p.feedback_end) :
    (getProposalPhase p now = Phase.upcoming ↔ now < p.voting_start) ∧
    (getProposalPhase p now = Phase.voting ↔ p.voting_start ≤ now ∧ now < p.voting_end) ∧
    (getProposalPhase p now = Phase.feedback ↔ p.voting_end ≤ now ∧ now < p.feedback_end) ∧
    (getProposalPhase p now = Phase.ended ↔ p.feedback_end ≤ now) ∧
    (p.voting_end < p.feedback_end → getProposalPhase p p.voting_end = Phase.feedback) ∧
    getProposalPhase p p.voting_end ≠ Phase.voting := by
  unfold getProposalPhase
  refine ⟨?_, ?_, ?_, ?_, ?_, ?_⟩ <;> split_ifs <;> simp_all <;> omega

/-- C1 witness: at `now = 5` the sample proposal (voting over `[0,10)`) is in
the `voting` phase, by the amended partition theorem. -/
theorem getProposalPhase_partition_witness :
    getProposalPhase sampleProposal 5 = Phase.voting :=
  ((getProposalPhase_partition sampleProposal 5 (by decide) (by decide)).2.1).mpr
    (by decide)

/-- C1 counterexample: a proposal with `voting_start = voting_end =
feedback_end = 0` satisfies the temporal invariant, yet at
`now = voting_end` the derived phase is `ended`, not `feedback` as the claim
states. -/
theorem getProposalPhase_boundary_counterexample :
    degenerateProposal.voting_start ≤ degenerateProposal.voting_end ∧
    degenerateProposal.voting_end ≤ degenerateProposal.feedback_end ∧
    getProposalPhase degenerateProposal degenerateProposal.voting_end ≠
      Phase.feedback := by
  decide

/-- C2: the engine produces a main-track action exactly when
`now >= voting_end` and `conclusion` is unset, a feedback-track action
exactly when `now >= feedback_end` and `feedback_conclusion` is unset; at
`now = voting_end` with `voting_end < feedback_end` the main track is
eligible (when unset) and the feedback track is not; once both conclusion
fields are set no action is produced. -/
theorem autoConclude_eligibility (p : Proposal) (now : Int) :
    (({ proposalId := p.proposal_id, track := Track.main } : ConclusionAction)
        ∈ autoConclude p now ↔ p.voting_end ≤ now ∧ p.conclusion = none) ∧
    (({ proposalId := p.proposal_id, track := Track.feedback } : ConclusionAction)
        ∈ autoConclude p now ↔
      p.feedback_end ≤ now ∧ p.feedback_conclusion = none) ∧
    (p.conclusion ≠ none → p.feedback_conclusion ≠ none →
      autoConclude p now = []) ∧
    (now = p.voting_end → p.voting_end < p.feedback_end →
      (p.conclusion = none →
        ({ proposalId := p.proposal_id, track := Track.main } : ConclusionAction)
          ∈ autoConclude p now) ∧
      ({ proposalId := p.proposal_id, track := Track.feedback } : ConclusionAction)
          ∉ autoConclude p now) := by
  refine ⟨?_, ?_, ?_, ?_⟩ <;>
    cases hc : p.conclusion <;> cases hf : p.feedback_conclusion <;>
      simp_all [autoConclude, mainEligible, feedbackEligible]

/-- C2 witness: at `now = 15` the sample proposal (voting ends at 10, both
conclusion fields unset) yields a main-track conclusion action. -/
theorem autoConclude_eligibility_witness :
    ({ proposalId := "p1", track := Track.main } : ConclusionAction)
      ∈ autoConclude sampleProposal 15 :=
  (autoConclude_eligibility sampleProposal 15).1.mpr (by decide)

/-- Helper for idempotence: a proposal whose eligible tracks were all
persisted by a fully successful pass produces no further action. -/
theorem autoConclude_persist_eq_nil (val : Track → String) (now : Int)
    (p : Proposal) :
    autoConclude (persistProposal val (fun _ _ => true) now p) now = [] := by
  cases hc : p.conclusion <;> cases hf : p.feedback_conclusion <;>
    by_cases hm : p.voting_end ≤ now <;> by_cases hfb : p.feedback_end ≤ now <;>
      simp_all [autoConclude, persistProposal, mainEligible, feedbackEligible]

/-- C3: once the conclusion writes of a fully successful orchestrator pass
have been persisted into the snapshots, running `autoConcludeProposals`
again on that list at the same time produces `total = 0` and makes no
conclusion attempts: a track already concluded is never reconsidered, so
redundant invocation is safe. -/
theorem autoConcludeProposals_idempotent (ps : List Proposal) (now : Int)
    (val : Track → String) :
    autoConcludeProposals (ps.map (persistProposal val (fun _ _ => true) now))
        now (fun _ _ => true) =
      { total := 0, concluded := [] } := by
  induction ps with
  | nil => rfl
  | cons p ps ih =>
      simp_all [autoConcludeProposals, autoConclude_persist_eq_nil]

/-- C4: the orchestrator attempts every eligible conclusion independently of
other proposals' outcomes (it is a homomorphism over list append, so an
earlier failure never suppresses later attempts and the outcome sequence
preserves input order), `total` equals the number of attempts made (a
proposal with no eligible track contributes zero attempts and no entry),
and every recorded outcome carries `success = false` together with an error
message exactly when its conclusion call failed, without the batch
throwing. -/
theorem autoConcludeProposals_batch (ps qs : List Proposal) (now : Int)
    (ok : String → Track → Bool) :
    ((autoConcludeProposals (ps ++ qs) now ok).concluded =
      (autoConcludeProposals ps now ok).concluded ++
        (autoConcludeProposals qs now ok).concluded) ∧
    (∀ p : Proposal, (autoConcludeProposals [p] now ok).concluded =
      (autoConclude p now).map (concludeCall ok)) ∧
    ((autoConcludeProposals ps now ok).total =
      (autoConcludeProposals ps now ok).concluded.length) ∧
    ((autoConcludeProposals ps now ok).total =
      (ps.map (fun p => (autoConclude p now).length)).sum) ∧
    (∀ o ∈ (autoConcludeProposals ps now ok).concluded,
      o.success = ok o.proposalId o.phase ∧
      (o.success = false → o.error.isSome = true) ∧
      (o.success = true → o.error = none)) := by
  refine ⟨?_, ?_, ?_, ?_, ?_⟩
  · simp [autoConcludeProposals]
  · intro p; simp [autoConcludeProposals]
  · simp [autoConcludeProposals]
  · simp [autoConcludeProposals, List.length_flatMap, Function.comp_def]
  · intro o ho
    simp only [autoConcludeProposals, List.mem_flatMap, List.mem_map] at ho
    obtain ⟨p, _, a, _, rfl⟩ := ho
    unfold concludeCall
    split <;> simp_all

/-- C4 witness: the three-proposal partial-failure scenario at `now = 30`
with the collaborator failing on the second proposal: `total = 3` equals the
number of recorded attempts, the success flags are
`[true, false, true]`, and the outcome order matches the input order. -/
theorem autoConcludeProposals_batch_witness :
    ((autoConcludeProposals [proposalA, proposalB, proposalC] 30 failOnB).total =
      (autoConcludeProposals [proposalA, proposalB, proposalC] 30
        failOnB).concluded.length) ∧
    (autoConcludeProposals [proposalA, proposalB, proposalC] 30 failOnB).total = 3 ∧
    ((autoConcludeProposals [proposalA, proposalB, proposalC] 30
        failOnB).concluded.map ConcludeOutcome.success = [true, false, true]) ∧
    ((autoConcludeProposals [proposalA, proposalB, proposalC] 30
        failOnB).concluded.map ConcludeOutcome.proposalId = ["pA", "pB", "pC"]) :=
  ⟨(autoConcludeProposals_batch [proposalA, proposalB, proposalC] [] 30 failOnB).2.2.1,
    by decide, by decide, by decide⟩

/-- Helper: the tally fold computes exactly the per-choice reference buckets,
with `total` the componentwise sum of the three. -/
theorem getVoteCounts_eq (p : Proposal) (isFeedback : Bool)
    (votes : List Vote) :
    getVoteCounts p votes isFeedback =
      { yes := tallyBucket p isFeedback "YES" votes
        no := tallyBucket p isFeedback "NO" votes
        abstain := tallyBucket p isFeedback "ABSTAIN" votes
        total := ((tallyBucket p isFeedback "YES" votes).plus
            (tallyBucket p isFeedback "NO" votes)).plus
            (tallyBucket p isFeedback "ABSTAIN" votes) } := by
  induction votes with
  | nil => rfl
  | cons v vs ih =>
      have hcons : getVoteCounts p (v :: vs) isFeedback =
          voteStep p isFeedback v (getVoteCounts p vs isFeedback) := rfl
      rw [hcons, ih]
      by_cases h1 : voteMatches p isFeedback v
      · by_cases h2 : v.vote = "YES"
        · simp [voteStep, tallyBucket, Bucket.add, Bucket.plus, h1, h2,
            List.filter_cons]
          omega
        · by_cases h3 : v.vote = "NO"
          · simp [voteStep, tallyBucket, Bucket.add, Bucket.plus, h1, h2, h3,
              List.filter_cons]
            omega
          · by_cases h4 : v.vote = "ABSTAIN"
            · simp [voteStep, tallyBucket, Bucket.add, Bucket.plus, h1, h2,
                h3, h4, List.filter_cons]
              omega
            · simp [voteStep, tallyBucket, h1, h2, h3, h4, List.filter_cons]
      · simp [voteStep, tallyBucket, h1, List.filter_cons]

/-- C5: each bucket of the tally counts exactly the votes matching the
proposal, the track, and that choice; a vote for another proposal, the
other track, or with an unknown choice value changes nothing; and the
`total` bucket is the sum of the yes, no, and abstain buckets in both count
and weight. -/
theorem tally_spec (p : Proposal) (votes : List Vote) (isFeedback : Bool) :
    ((getVoteCounts p votes isFeedback).yes =
      tallyBucket p isFeedback "YES" votes) ∧
    ((getVoteCounts p votes isFeedback).no =
      tallyBucket p isFeedback "NO" votes) ∧
    ((getVoteCounts p votes isFeedback).abstain =
      tallyBucket p isFeedback "ABSTAIN" votes) ∧
    ((getVoteCounts p votes isFeedback).total.count =
      (getVoteCounts p votes isFeedback).yes.count +
        (getVoteCounts p votes isFeedback).no.count +
        (getVoteCounts p votes isFeedback).abstain.count) ∧
    ((getVoteCounts p votes isFeedback).total.weight =
      (getVoteCounts p votes isFeedback).yes.weight +
        (getVoteCounts p votes isFeedback).no.weight +
        (getVoteCounts p votes isFeedback).abstain.weight) ∧
    (∀ v : Vote,
      voteMatches p isFeedback v = false ∨
        (v.vote ≠ "YES" ∧ v.vote ≠ "NO" ∧ v.vote ≠ "ABSTAIN") →
      getVoteCounts p (v :: votes) isFeedback =
        getVoteCounts p votes isFeedback) := by
  refine ⟨?_, ?_, ?_, ?_, ?_, ?_⟩
  · rw [getVoteCounts_eq]
  · rw [getVoteCounts_eq]
  · rw [getVoteCounts_eq]
  · rw [getVoteCounts_eq]; simp [Bucket.plus]
  · rw [getVoteCounts_eq]; simp [Bucket.plus]
  · intro v hv
    have hcons : getVoteCounts p (v :: votes) isFeedback =
        voteStep p isFeedback v (getVoteCounts p votes isFeedback) := rfl
    rcases hv with hv | ⟨h1, h2, h3⟩
    · rw [hcons]; simp [voteStep, hv]
    · rw [hcons]; simp [voteStep, h1, h2, h3]

/-- C5 witness: on the specification's demonstration vote list the tally of
the sample proposal's main track gives yes = (2,5), no = (1,1),
abstain = (0,0), total = (3,6), and adding a feedback-track vote changes
nothing in the main-track tally. -/
theorem tally_spec_witness :
    getVoteCounts sampleProposal demoVotes false =
      { yes := { count := 2, weight := 5 }, no := { count := 1, weight := 1 },
        abstain := { count := 0, weight := 0 },
        total := { count := 3, weight := 6 } } ∧
    getVoteCounts sampleProposal (voteOtherTrack :: demoVotes) false =
      getVoteCounts sampleProposal demoVotes false :=
  ⟨by decide,
    (tally_spec sampleProposal demoVotes false).2.2.2.2.2 voteOtherTrack
      (Or.inl (by decide))⟩

/-- Helper: the reference bucket is invariant under permutation of the vote
list. -/
theorem tallyBucket_perm (p : Proposal) (isFeedback : Bool) (choice : String)
    (votes votes' : List Vote) (h : votes.Perm votes') :
    tallyBucket p isFeedback choice votes =
      tallyBucket p isFeedback choice votes' := by
  have hf := h.filter (fun v => voteMatches p isFeedback v && v.vote == choice)
  simp [tallyBucket, hf.length_eq, (hf.map Vote.weight).sum_eq]

/-- C6: the tally is order-independent: permuting the input vote list yields
an identical result. -/
theorem tally_perm (p : Proposal) (isFeedback : Bool)
    (votes votes' : List Vote) (h : votes.Perm votes') :
    getVoteCounts p votes isFeedback = getVoteCounts p votes' isFeedback := by
  rw [getVoteCounts_eq, getVoteCounts_eq,
    tallyBucket_perm p isFeedback "YES" votes votes' h,
    tallyBucket_perm p isFeedback "NO" votes votes' h,
    tallyBucket_perm p isFeedback "ABSTAIN" votes votes' h]

/-- C6 witness: swapping the first two demonstration votes leaves the tally
unchanged. -/
theorem tally_perm_witness :
    getVoteCounts sampleProposal [voteYes3, voteYes2, voteNo1] false =
      getVoteCounts sampleProposal [voteYes2, voteYes3, voteNo1] false :=
  tally_perm sampleProposal false _ _ (List.Perm.swap voteYes2 voteYes3 [voteNo1])

/-- C7: whenever the phase is not the active phase of the requested track
(main requires `voting`, feedback requires `feedback`), the permission check
denies the vote with a non-empty reason, for every actor house and
ownership flag. -/
theorem canUserVote_inactive_phase (p : Proposal)
    (actorAddress actorHouse : Option String) (isOwner isFeedback : Bool)
    (now : Int)
    (h : if isFeedback then getProposalPhase p now ≠ Phase.feedback
         else getProposalPhase p now ≠ Phase.voting) :
    (canUserVote p actorAddress actorHouse isOwner isFeedback now).canVote =
      false ∧
    (canUserVote p actorAddress actorHouse isOwner isFeedback now).reason ≠
      "" := by
  cases actorAddress with
  | none => simp [canUserVote]
  | some a =>
      cases isFeedback <;> simp_all [canUserVote]

/-- C7 witness: on the sample proposal at `now = 5` (phase `voting`) a
feedback vote by a connected owner is denied with a non-empty reason. -/
theorem canUserVote_inactive_phase_witness :
    (canUserVote sampleProposal (some "0xa") (some "A") true true 5).canVote =
      false ∧
    (canUserVote sampleProposal (some "0xa") (some "A") true true 5).reason ≠
      "" :=
  canUserVote_inactive_phase sampleProposal (some "0xa") (some "A") true true
    5 (by decide)

/-- C8: an owner passes the house restriction: a connected owner may cast a
main-track vote during the `voting` phase whatever their house, and the
feedback track imposes no house restriction on any connected member during
the `feedback` phase. -/
theorem canUserVote_owner_bypass (p : Proposal) (a : String)
    (actorHouse : Option String) (now : Int) :
    (getProposalPhase p now = Phase.voting →
      (canUserVote p (some a) actorHouse true false now).canVote = true) ∧
    (∀ isOwner : Bool, getProposalPhase p now = Phase.feedback →
      (canUserVote p (some a) actorHouse isOwner true now).canVote = true) := by
  constructor
  · intro h; simp [canUserVote, h]
  · intro isOwner h; simp [canUserVote, h]

/-- C8 witness: at `now = 5` (phase `voting`) the owner with house `B`
(different from the sample proposal's voting house `A`) may vote on the main
track, and at `now = 15` (phase `feedback`) a non-owner with house `B` may
vote on the feedback track. -/
theorem canUserVote_owner_bypass_witness :
    (canUserVote sampleProposal (some "0xa") (some "B") true false 5).canVote =
      true ∧
    (canUserVote sampleProposal (some "0xa") (some "B") false true 15).canVote =
      true :=
  ⟨(canUserVote_owner_bypass sampleProposal "0xa" (some "B") 5).1 (by decide),
    (canUserVote_owner_bypass sampleProposal "0xa" (some "B") 15).2 false
      (by decide)⟩

/-- Helper: the phase rank map is injective on the four phases. -/
theorem phaseOrder_inj (x y : Phase) (h : phaseOrder x = phaseOrder y) :
    x = y := by
  cases x <;> cases y <;> simp_all [phaseOrder]

/-- Helper: the active-mode comparator orders lexicographically by phase
rank and then by the in-phase sort key. -/
theorem proposalLE_active_iff (now : Int) (a b : Proposal) :
    proposalLE true now a b = true ↔
      (phaseOrder (getProposalPhase a now) <
        phaseOrder (getProposalPhase b now) ∨
       (getProposalPhase a now = getProposalPhase b now ∧
        sortKey now a ≤ sortKey now b)) := by
  cases hpa : getProposalPhase a now <;> cases hpb : getProposalPhase b now <;>
    simp [proposalLE, proposalCompare, sortKey, phaseOrder, hpa, hpb]

/-- Helper: the inactive-mode comparator is descending `feedback_end`. -/
theorem proposalLE_inactive_iff (now : Int) (a b : Proposal) :
    proposalLE false now a b = true ↔ b.feedback_end ≤ a.feedback_end := by
  simp [proposalLE, proposalCompare]
  try omega

/-- Helper: the comparator relation is transitive in both modes. -/
theorem proposalLE_trans (showOnlyActive : Bool) (now : Int)
    (a b c : Proposal) (h1 : proposalLE showOnlyActive now a b)
    (h2 : proposalLE showOnlyActive now b c) :
    proposalLE showOnlyActive now a c := by
  cases showOnlyActive
  · rw [proposalLE_inactive_iff] at h1 h2 ⊢; omega
  · rw [proposalLE_active_iff] at h1 h2 ⊢
    rcases h1 with h1 | ⟨h1, h1k⟩ <;> rcases h2 with h2 | ⟨h2, h2k⟩
    · exact Or.inl (h1.trans h2)
    · exact Or.inl (by rw [← h2]; exact h1)
    · exact Or.inl (by rw [h1]; exact h2)
    · exact Or.inr ⟨h1.trans h2, h1k.trans h2k⟩

/-- Helper: the comparator relation is total in both modes. -/
theorem proposalLE_total (showOnlyActive : Bool) (now : Int)
    (a b : Proposal) :
    proposalLE showOnlyActive now a b || proposalLE showOnlyActive now b a := by
  cases showOnlyActive
  · simp [proposalLE_inactive_iff]; omega
  · simp only [Bool.or_eq_true, proposalLE_active_iff]
    by_cases h : phaseOrder (getProposalPhase a now) =
        phaseOrder (getProposalPhase b now)
    · have hp := phaseOrder_inj _ _ h
      by_cases hk : sortKey now a ≤ sortKey now b
      · exact Or.inl (Or.inr ⟨hp, hk⟩)
      · exact Or.inr (Or.inr ⟨hp.symm, by omega⟩)
    · rcases Nat.lt_or_ge (phaseOrder (getProposalPhase a now))
          (phaseOrder (getProposalPhase b now)) with hlt | hge
      · exact Or.inl (Or.inl hlt)
      · exact Or.inr (Or.inl (by omega))

/-- Helper: the active-mode comparator implies the claim's per-phase
ordering description. -/
theorem proposalLE_active_weaken (now : Int) (a b : Proposal)
    (h : proposalLE true now a b = true) :
    phaseOrder (getProposalPhase a now) ≤ phaseOrder (getProposalPhase b now) ∧
    (getProposalPhase a now = Phase.upcoming →
      getProposalPhase b now = Phase.upcoming →
      a.voting_start ≤ b.voting_start) ∧
    (getProposalPhase a now = Phase.voting →
      getProposalPhase b now = Phase.voting →
      a.voting_end ≤ b.voting_end) ∧
    (getProposalPhase a now = Phase.feedback →
      getProposalPhase b now = Phase.feedback →
      b.feedback_end ≥ a.feedback_end) := by
  rw [proposalLE_active_iff] at h
  rcases h with h | ⟨hp, hk⟩
  · refine ⟨Nat.le_of_lt h, ?_, ?_, ?_⟩ <;> intro ha hb <;>
      rw [ha, hb] at h <;> simp [phaseOrder] at h
  · refine ⟨by rw [hp], ?_, ?_, ?_⟩ <;> intro ha hb <;>
      simp_all [sortKey]

/-- C9: in active mode `sortProposals` orders by phase rank
voting < feedback < upcoming < other, with ascending `voting_start` among
upcoming, ascending `voting_end` among voting, and ascending `feedback_end`
among feedback proposals; in inactive mode it sorts by descending
`feedback_end`; in both modes the result is a permutation of the input (the
input itself is untouched: a sorted copy is returned), and an absent input
yields the empty list. -/
theorem sortProposals_spec (ps : List Proposal) (now : Int) :
    (sortProposals (some ps) true now).Pairwise (fun a b =>
      phaseOrder (getProposalPhase a now) ≤
        phaseOrder (getProposalPhase b now) ∧
      (getProposalPhase a now = Phase.upcoming →
        getProposalPhase b now = Phase.upcoming →
        a.voting_start ≤ b.voting_start) ∧
      (getProposalPhase a now = Phase.voting →
        getProposalPhase b now = Phase.voting →
        a.voting_end ≤ b.voting_end) ∧
      (getProposalPhase a now = Phase.feedback →
        getProposalPhase b now = Phase.feedback →
        b.feedback_end ≥ a.feedback_end)) ∧
    (sortProposals (some ps) false now).Pairwise (fun a b =>
      b.feedback_end ≤ a.feedback_end) ∧
    (sortProposals (some ps) true now).Perm ps ∧
    (sortProposals (some ps) false now).Perm ps ∧
    sortProposals none true now = [] ∧
    sortProposals none false now = [] := by
  refine ⟨?_, ?_, ?_, ?_, rfl, rfl⟩
  · have hs := List.sorted_mergeSort (proposalLE_trans true now)
      (proposalLE_total true now) ps
    exact hs.imp (fun h => proposalLE_active_weaken now _ _ h)
  · have hs := List.sorted_mergeSort (proposalLE_trans false now)
      (proposalLE_total false now) ps
    exact hs.imp (fun h => (proposalLE_inactive_iff now _ _).mp h)
  · exact List.mergeSort_perm ps (proposalLE true now)
  · exact List.mergeSort_perm ps (proposalLE false now)

/-- C9 witness: sorting the three scenario proposals together with the
degenerate (ended) one at `now = 30` puts the ended proposal last in active
mode, and the concrete result is a permutation of the input by the theorem. -/
theorem sortProposals_spec_witness :
    (sortProposals (some [degenerateProposal, proposalA, proposalB]) true
      30).Perm [degenerateProposal, proposalA, proposalB] ∧
    sortProposals (some [degenerateProposal, proposalA, proposalB]) true 30 =
      [proposalA, proposalB, degenerateProposal] :=
  ⟨(sortProposals_spec [degenerateProposal, proposalA, proposalB] 30).2.2.1,
    by simp [sortProposals, List.mergeSort, List.splitInTwo, List.splitAt,
      List.splitAt.go, List.merge, proposalLE, proposalCompare,
      getProposalPhase, phaseOrder, degenerateProposal, proposalA, proposalB,
      sampleProposal]⟩

/-- C10 (amended): every proposal route (create, conclude, get-by-id)
responds `{success: true, data}` when the service call succeeds, and on a
thrown error delegates to the error middleware, which responds
`{success: false, message}` with HTTP status `err.errorCode` when that code
is present and truthy (nonzero) and 500 otherwise; a route response is a
success body exactly when the service call succeeded, and every outcome is
handled (no crash path). -/
theorem proposal_routes_spec (δ : Type) (service : Except AppError δ) :
    (handleCreateProposal δ service = routeResponse δ service ∧
     handleConcludeProposal δ service = routeResponse δ service ∧
     handleGetProposalWithVotes δ service = routeResponse δ service) ∧
    (∀ d : δ, service = Except.ok d →
      routeResponse δ service =
        { status := 200, success := true, data := some d, message := none }) ∧
    (∀ e : AppError, service = Except.error e →
      (routeResponse δ service).success = false ∧
      (routeResponse δ service).data = none ∧
      ((routeResponse δ service).message).isSome = true ∧
      (routeResponse δ service).status =
        (match e.errorCode with
          | none => 500
          | some n => if n = 0 then 500 else n)) ∧
    ((routeResponse δ service).success = true ↔
      ∃ d : δ, service = Except.ok d) := by
  refine ⟨⟨rfl, rfl, rfl⟩, ?_, ?_, ?_⟩
  · intro d hd; rw [hd]; rfl
  · intro e he
    rw [he]
    refine ⟨rfl, rfl, rfl, ?_⟩
    cases h : e.errorCode <;>
      simp [routeResponse, errorMiddleware, errorCodeOr500, h]
  · cases service with
    | ok d => simp [routeResponse]
    | error e => simp [routeResponse, errorMiddleware]

/-- C10 witness: a successful conclude service call yields the plain
success body with the Express default status. -/
theorem proposal_routes_spec_witness :
    routeResponse String (Except.ok "concluded") =
      { status := 200, success := true, data := some "concluded",
        message := none } :=
  (proposal_routes_spec String (Except.ok "concluded")).2.1 "concluded" rfl

/-- C10 counterexample: an error carrying the present but JS-falsy code 0
is answered with status 500, not with the present `errorCode` as the claim
states. -/
theorem proposal_routes_errorCode_counterexample :
    errZero.errorCode = some 0 ∧
    (handleConcludeProposal String (Except.error errZero)).status = 500 ∧
    (500 : Int) ≠ 0 :=
  ⟨rfl, rfl, by decide⟩

end EthPrague
